import Mathlib

/-!
Verification of the vault-integration layer of `wopr-plugin-obsidian`.

The TypeScript sources (`src/obsidian-client.ts`, `src/a2a-tools.ts`,
`src/index.ts`) are shallowly embedded below.  Network I/O (`fetch`) is
modelled by passing the outcome of each HTTP request in explicitly: a
transport failure or a thrown exception is `Except.error msg`, a delivered
response is `Except.ok` of an `HttpResponse` carrying the `ok` flag, the
numeric status, the status text and the decoded JSON body.  JavaScript
exceptions thrown by a method are the `Except.error` of its result;
`try`/`catch` blocks in the source become explicit matches on that
`Except`.  `JSON.stringify` of a structured payload is modelled by the
structured payload itself (the `ToolText.json` constructor), since the
claims only distinguish payload shapes, never the concrete JSON text.
-/

/-- Decoded JSON body of Obsidian's search endpoint: one match inside a
search result (`ObsidianSearchResult.matches` element in `types.ts`). -/
structure SearchMatch where
  start : Nat
  stop : Nat
  context : String
  deriving Repr, DecidableEq

/-- One item of the array returned by `ObsidianClient.search`
(`ObsidianSearchResult` in `types.ts`).  The numeric score is carried
through unchanged by every operation, so it is embedded as an `Int`. -/
structure ObsidianSearchResult where
  filename : String
  score : Int
  «matches» : List SearchMatch
  deriving Repr, DecidableEq

/-- File metadata of a note (`ObsidianNote.stat` in `types.ts`). -/
structure NoteStat where
  ctime : Nat
  mtime : Nat
  size : Nat
  deriving Repr, DecidableEq

/-- A note as returned by `ObsidianClient.read` (`ObsidianNote` in
`types.ts`). -/
structure ObsidianNote where
  path : String
  content : String
  stat : NoteStat
  deriving Repr, DecidableEq

/-- An HTTP response as seen by the client code: the `ok` flag (2xx
status), the numeric status, the status text and the decoded body. -/
structure HttpResponse (α : Type) where
  ok : Bool
  status : Nat
  statusText : String
  body : α
  deriving Repr, DecidableEq

/-- The mutable state of an `ObsidianClient` instance: the single
`connected` flag (`obsidian-client.ts` line 6).  The base URL and headers
are immutable and never observed by any claim. -/
structure ClientState where
  connected : Bool
  deriving Repr, DecidableEq

/-- `ObsidianClient.ping`, `obsidian-client.ts` lines 20-29.  The fetch
outcome is `.error` on a transport failure (rejected promise) and
`.ok response` on a delivered response.  The body of the `try` block sets
`connected := res.ok` and returns it; the `catch` block sets
`connected := false` and returns `false`. -/
def ObsidianClient.ping (fetchResult : Except String (HttpResponse Unit))
    (st : ClientState) : ClientState × Bool :=
  match fetchResult with
  | .ok res => ({ st with connected := res.ok }, res.ok)
  | .error _ => ({ st with connected := false }, false)

/-- `ObsidianClient.read`, `obsidian-client.ts` lines 31-37.  A transport
failure propagates; a non-ok response throws the formatted error; an ok
response yields the decoded note.  The state is returned unchanged. -/
def ObsidianClient.read (path : String)
    (fetchResult : Except String (HttpResponse ObsidianNote))
    (st : ClientState) : ClientState × Except String ObsidianNote :=
  match fetchResult with
  | .error e => (st, .error e)
  | .ok res =>
    if res.ok then (st, .ok res.body)
    else (st, .error ("Failed to read note \"" ++ path ++ "\": "
      ++ toString res.status ++ " " ++ res.statusText))

/-- `ObsidianClient.write`, `obsidian-client.ts` lines 39-46. -/
def ObsidianClient.write (path : String) (_content : String)
    (fetchResult : Except String (HttpResponse Unit))
    (st : ClientState) : ClientState × Except String Unit :=
  match fetchResult with
  | .error e => (st, .error e)
  | .ok res =>
    if res.ok then (st, .ok ())
    else (st, .error ("Failed to write note \"" ++ path ++ "\": "
      ++ toString res.status ++ " " ++ res.statusText))

/-- `ObsidianClient.append`, `obsidian-client.ts` lines 48-55. -/
def ObsidianClient.append (path : String) (_content : String)
    (fetchResult : Except String (HttpResponse Unit))
    (st : ClientState) : ClientState × Except String Unit :=
  match fetchResult with
  | .error e => (st, .error e)
  | .ok res =>
    if res.ok then (st, .ok ())
    else (st, .error ("Failed to append to note \"" ++ path ++ "\": "
      ++ toString res.status ++ " " ++ res.statusText))

/-- `ObsidianClient.search`, `obsidian-client.ts` lines 57-65.  The
`contextLength` argument (default 200) only shapes the request URL and is
kept for fidelity of the signature. -/
def ObsidianClient.search (_query : String)
    (fetchResult : Except String (HttpResponse (List ObsidianSearchResult)))
    (st : ClientState) (_contextLength : Nat := 200) :
    ClientState × Except String (List ObsidianSearchResult) :=
  match fetchResult with
  | .error e => (st, .error e)
  | .ok res =>
    if res.ok then (st, .ok res.body)
    else (st, .error ("Search failed: " ++ toString res.status ++ " " ++ res.statusText))

/-- `ObsidianClient.list`, `obsidian-client.ts` lines 67-73.  The decoded
body's `files` field may be absent (`none`); `data.files ?? []` normalises
that to the empty list. -/
def ObsidianClient.list (folder : String)
    (fetchResult : Except String (HttpResponse (Option (List String))))
    (st : ClientState) : ClientState × Except String (List String) :=
  match fetchResult with
  | .error e => (st, .error e)
  | .ok res =>
    if res.ok then (st, .ok (res.body.getD []))
    else (st, .error ("Failed to list folder \"" ++ folder ++ "\": "
      ++ toString res.status ++ " " ++ res.statusText))

/-- `ObsidianClient.isConnected`, `obsidian-client.ts` lines 16-18. -/
def ObsidianClient.isConnected (st : ClientState) : Bool :=
  st.connected

/-! ### Tool adapter (`a2a-tools.ts`) -/

/-- The serialized success payload of one tool action, standing for the
`JSON.stringify`-ed object the source puts into the result text. -/
inductive ToolData
  | searchItems (items : List (String × Int × String))
  | noteData (path content : String)
  | writeResult (success : Bool) (path : String)
  | appendResult (success : Bool) (path : String)
  | listResult (folder : String) (files : List String)
  deriving Repr, DecidableEq

/-- The text of a tool result: serialized JSON for success payloads, a
plain human-readable message for failures. -/
inductive ToolText
  | json (d : ToolData)
  | plain (s : String)
  deriving Repr, DecidableEq

/-- The uniform result envelope `ToolResult` of `a2a-tools.ts` line 3:
one text content item plus the optional `isError` flag (absent is
embedded as `false`). -/
structure ToolResult where
  text : ToolText
  isError : Bool
  deriving Repr, DecidableEq

/-- Success envelope, `a2a-tools.ts` lines 5-7 (`ok`). -/
def toolOk (d : ToolData) : ToolResult :=
  { text := .json d, isError := false }

/-- Failure envelope, `a2a-tools.ts` lines 9-12 (`err`). -/
def toolErr (message : String) : ToolResult :=
  { text := .plain message, isError := true }

/-- The `try { ... } catch (error) { return err(error) }` pattern shared
by every tool handler: a thrown failure of the body becomes the failure
envelope, so nothing propagates. -/
def catchToErr (body : Except String ToolResult) : ToolResult :=
  match body with
  | .ok r => r
  | .error e => toolErr e

/-- Mapping of one search result into the search action's payload item,
`a2a-tools.ts` line 31: `\x7b path: r.filename, score: r.score, context:
r.matches[0]?.context ?? "" \x7d`. -/
def searchItemOf (r : ObsidianSearchResult) : String × Int × String :=
  (r.filename, r.score, ((r.matches.head?).map SearchMatch.context).getD "")

/-- Handler of `obsidian.search`, `a2a-tools.ts` lines 27-35.
`clientCall` is the outcome of `client.search(query)`: `.error` when that
call throws. `limit` is `none` when the caller omits it (default 5). -/
def searchHandler (limit : Option Nat)
    (clientCall : Except String (List ObsidianSearchResult)) : ToolResult :=
  catchToErr <| do
    let results ← clientCall
    pure (toolOk (.searchItems ((results.take (limit.getD 5)).map searchItemOf)))

/-- Handler of `obsidian.read`, `a2a-tools.ts` lines 47-55. -/
def readHandler (clientCall : Except String ObsidianNote) : ToolResult :=
  catchToErr <| do
    let note ← clientCall
    pure (toolOk (.noteData note.path note.content))

/-- Handler of `obsidian.write`, `a2a-tools.ts` lines 68-76. -/
def writeHandler (path : String) (clientCall : Except String Unit) : ToolResult :=
  catchToErr <| do
    let _ ← clientCall
    pure (toolOk (.writeResult true path))

/-- Handler of `obsidian.append`, `a2a-tools.ts` lines 89-97. -/
def appendHandler (path : String) (clientCall : Except String Unit) : ToolResult :=
  catchToErr <| do
    let _ ← clientCall
    pure (toolOk (.appendResult true path))

/-- Handler of `obsidian.list`, `a2a-tools.ts` lines 109-117; `folder` is
`none` when the argument object omits it, defaulted to `""`. -/
def listHandler (folder : Option String) (clientCall : Except String (List String)) : ToolResult :=
  catchToErr <| do
    let files ← clientCall
    pure (toolOk (.listResult (folder.getD "") files))

/-! ### Extension object (`index.ts` lines 390-401) -/

/-- The capability export's `search` operation, `index.ts` lines 391-394:
`(query, limit = 10) => getClient().search(query).then(r => r.slice(0, limit))`.
`clientCall` is the outcome of `client.search(query)`; a failure
propagates to the extension caller unchanged. -/
def extensionSearch (limit : Option Nat)
    (clientCall : Except String (List ObsidianSearchResult)) :
    Except String (List ObsidianSearchResult) :=
  clientCall.map (fun r => r.take (limit.getD 10))

/-- The capability export's `isConnected` operation, `index.ts` line 399:
`() => client?.isConnected() ?? false`, where the module-level `client`
may have been released (`none`). -/
def extensionIsConnected (client : Option ClientState) : Bool :=
  match client with
  | some st => ObsidianClient.isConnected st
  | none => false

/-! ### Orchestrator (`index.ts`) -/

/-- The live configuration as read by `ctx.getConfig<ObsidianConfig>()`.
Fields a running host may leave unset (`?? default` in the source) are
`Option`s; `injectContext` is the raw string of the select field;
`sessionArchive` is stored either as a boolean or as its string form (the
config schema declares it as a `"true"`/`"false"` select while the type
declares it `boolean`, and the handler checks both). -/
inductive ArchiveSetting
  | bool (b : Bool)
  | str (s : String)
  deriving Repr, DecidableEq

/-- JavaScript `String(...)` applied to the archive setting. -/
def archiveSettingToString : ArchiveSetting → String
  | .bool true => "true"
  | .bool false => "false"
  | .str s => s

/-- Runtime configuration record (`ObsidianConfig` in `types.ts`),
restricted to the fields the orchestration logic reads. -/
structure ObsidianConfig where
  vaultPath : Option String
  injectContext : String
  maxContextNotes : Option Nat
  sessionArchive : ArchiveSetting
  deriving Repr, DecidableEq

/-- The context block returned by a successful `getContext`, `index.ts`
lines 337-341: the assembled content, the fixed `"system"` role and the
`noteCount` metadata field. -/
structure ContextBlock where
  content : String
  role : String
  noteCount : Nat
  deriving Repr, DecidableEq

/-- JavaScript `String.prototype.trim` as used on the message content,
embedded structurally over the character list (stripping leading and
trailing whitespace), so that it evaluates on concrete strings. -/
def jsTrim (s : String) : String :=
  ⟨((s.data.dropWhile Char.isWhitespace).reverse.dropWhile Char.isWhitespace).reverse⟩

/-- One note section of the context block, `index.ts` lines 327-334: the
per-note `try`/`catch` turns a failed `client.read(r.filename)` into the
`*(could not read)*` placeholder, a successful one into the filename
heading plus the note content truncated to 2000 characters. -/
def noteSection (readNote : String → Except String ObsidianNote)
    (r : ObsidianSearchResult) : String :=
  match readNote r.filename with
  | .ok note => "### " ++ r.filename ++ "\n" ++ note.content.take 2000
  | .error _ => "### " ++ r.filename ++ "\n*(could not read)*"

/-- Body of the registered context provider's `getContext`, `index.ts`
lines 313-341, up to but excluding the outer `catch`: guards run first
(mode, connectivity, blank message), then the vault search, whose thrown
failure is the `.error` of the result; `messageContent` is
`message.content`, `none` when absent; `readNote` gives the outcome of
`client.read` per filename. -/
def getContextBody (cfg : ObsidianConfig) (connected : Bool)
    (messageContent : Option String)
    (searchCall : Except String (List ObsidianSearchResult))
    (readNote : String → Except String ObsidianNote) :
    Except String (Option ContextBlock) :=
  if cfg.injectContext ≠ "always" then .ok none
  else if ¬connected then .ok none
  else
    match messageContent with
    | none => .ok none
    | some query =>
      if jsTrim query = "" then .ok none
      else
        match searchCall with
        | .error e => .error e
        | .ok results =>
          let top := results.take (cfg.maxContextNotes.getD 3)
          if top.length = 0 then .ok none
          else
            let notes := top.map (noteSection readNote)
            .ok (some
              { content := "## Relevant notes from your Obsidian vault:\n\n"
                  ++ String.intercalate "\n\n---\n\n" notes
              , role := "system"
              , noteCount := top.length })

/-- The registered `getContext`, `index.ts` lines 313-346: the outer
`catch` logs a warning and returns `null` on any failure escaping the
body (the search call), so the provider itself never throws. -/
def getContext (cfg : ObsidianConfig) (connected : Bool)
    (messageContent : Option String)
    (searchCall : Except String (List ObsidianSearchResult))
    (readNote : String → Except String ObsidianNote) : Option ContextBlock :=
  match getContextBody cfg connected messageContent searchCall readNote with
  | .ok r => r
  | .error _ => none

/-- Truthiness test of the archive setting, `index.ts` line 372:
`cfg.sessionArchive !== true && String(cfg.sessionArchive) !== "true"`
aborts; this is the complementary condition under which archiving
proceeds. -/
def archiveEnabled (a : ArchiveSetting) : Bool :=
  a == ArchiveSetting.bool true || archiveSettingToString a == "true"

/-- The `session:destroy` handler, `index.ts` lines 369-386, modelled as
the write request it issues against the vault: `some (path, content)`
when `client.write` is invoked (whether or not that write then succeeds —
its failure is caught and logged), `none` when the handler returns
without writing.  `client` is the module-level reference, `none` once
released; `timestamp` is `new Date().toISOString()`, whose first ten
characters are the `YYYY-MM-DD` date. -/
def sessionDestroyHandler (cfg : ObsidianConfig) (client : Option ClientState)
    (sessionId : String) (timestamp : String)
    (history : List (String × String)) : Option (String × String) :=
  if ¬archiveEnabled cfg.sessionArchive then none
  else
    match client with
    | none => none
    | some st =>
      if ¬ObsidianClient.isConnected st then none
      else
        let date := timestamp.take 10
        let path := cfg.vaultPath.getD "WOPR" ++ "/sessions/" ++ date ++ "-" ++ sessionId ++ ".md"
        let lines := String.intercalate "\n\n"
          (history.map (fun m => "**" ++ m.1 ++ ":** " ++ m.2))
        some (path, "# Session " ++ sessionId ++ "\n*" ++ timestamp ++ "*\n\n" ++ lines)

/-! ### Shutdown (`index.ts` lines 415-436)

The module-level mutable state of `index.ts` (lines 15-18) is a record;
cleanups are identified by position.  Host calls made by `shutdown` are
recorded as an effect trace.  A cleanup may throw (`cleanupFails`), which
the `try`/`catch` of lines 421-427 swallows; an unregistration may throw
(`unregFails`), and `shutdown` has no handler around lines 430-435, so
such a throw rejects the returned promise and skips the remaining
statements. -/

/-- The three host unregistration calls of `index.ts` lines 430-432. -/
inductive UnregStep
  | configSchema
  | contextProvider
  | capabilityExport
  deriving Repr, DecidableEq

/-- One observable host call made during shutdown. -/
inductive ShutdownEffect
  | clearTimer
  | runCleanup (idx : Nat)
  | unregister (step : UnregStep)
  deriving Repr, DecidableEq

/-- Module-level state of the plugin (`index.ts` lines 15-18): whether
`ctx` and `client` are non-null, whether `healthTimer` is set, and the
registered cleanup callbacks (by index). -/
structure PluginState where
  ctxPresent : Bool
  clientPresent : Bool
  healthTimer : Bool
  cleanups : List Nat
  deriving Repr, DecidableEq

/-- Result of one `shutdown` call: the state left behind, the host calls
performed in order, and whether the call threw (rejected). -/
structure ShutdownResult where
  state : PluginState
  trace : List ShutdownEffect
  threw : Bool
  deriving Repr, DecidableEq

/-- The cleanup loop, `index.ts` lines 421-427: every registered cleanup
is invoked in order; a throwing cleanup (per `cleanupFails`) is caught
and ignored, so the loop always reaches the end of the list. -/
def runCleanups (cleanupFails : Nat → Bool) : List Nat → List ShutdownEffect
  | [] => []
  | idx :: rest =>
    let _threw := cleanupFails idx
    ShutdownEffect.runCleanup idx :: runCleanups cleanupFails rest

/-- `plugin.shutdown`, `index.ts` lines 415-436.  Statement order: clear
the timer when set; run all cleanups (individually guarded); empty the
cleanup list; then, when `ctx` is non-null, the three unregistrations in
sequence - these are unguarded, so the first one that throws ends the
function with `client` and `ctx` still set; finally `client = null` and
`ctx = null`.  When `ctx` is null the optional-chaining calls are
skipped. -/
def shutdown (cleanupFails : Nat → Bool) (unregFails : UnregStep → Bool)
    (s : PluginState) : ShutdownResult :=
  let timerTrace : List ShutdownEffect := if s.healthTimer then [.clearTimer] else []
  let cleanupTrace := runCleanups cleanupFails s.cleanups
  let drained : PluginState := { s with healthTimer := false, cleanups := [] }
  let base := timerTrace ++ cleanupTrace
  if s.ctxPresent then
    if unregFails .configSchema then
      { state := drained
        trace := base ++ [.unregister .configSchema]
        threw := true }
    else if unregFails .contextProvider then
      { state := drained
        trace := base ++ [.unregister .configSchema, .unregister .contextProvider]
        threw := true }
    else if unregFails .capabilityExport then
      { state := drained
        trace := base ++ [.unregister .configSchema, .unregister .contextProvider,
          .unregister .capabilityExport]
        threw := true }
    else
      { state := { drained with clientPresent := false, ctxPresent := false }
        trace := base ++ [.unregister .configSchema, .unregister .contextProvider,
          .unregister .capabilityExport]
        threw := false }
  else
    { state := { drained with clientPresent := false, ctxPresent := false }
      trace := base
      threw := false }

/-! ### Theorems -/

/-- C7: `ping` never throws (its embedding is a total function with no
failure outcome); it returns `true` and sets the `connected` flag to
`true` exactly when the request to the server root was delivered with a
success (`ok`) HTTP status, and on any transport failure or non-success
status it returns `false` and sets `connected` to `false`; the returned
boolean always equals the flag it stored. -/
theorem ping_connected_iff_success (fetchResult : Except String (HttpResponse Unit))
    (st : ClientState) :
    (ObsidianClient.ping fetchResult st).2
      = (ObsidianClient.ping fetchResult st).1.connected ∧
    ((ObsidianClient.ping fetchResult st).2 = true ↔
      ∃ res, fetchResult = .ok res ∧ res.ok = true) ∧
    ((ObsidianClient.ping fetchResult st).2 = false ↔
      ¬∃ res, fetchResult = .ok res ∧ res.ok = true) := by
  cases fetchResult with
  | ok res =>
    refine ⟨rfl, ?_, ?_⟩ <;> simp [ObsidianClient.ping]
  | error e =>
    refine ⟨rfl, ?_, ?_⟩ <;> simp [ObsidianClient.ping]

/-- C8: none of `read`, `write`, `append`, `search`, `list` changes the
`connected` flag: whatever the outcome of the underlying request, the
client state after the call has the same `connected` value as before
(only `ping` writes it). -/
theorem nonPing_preserves_connected (path content folder query : String)
    (noteRes : Except String (HttpResponse ObsidianNote))
    (writeRes appendRes : Except String (HttpResponse Unit))
    (searchRes : Except String (HttpResponse (List ObsidianSearchResult)))
    (listRes : Except String (HttpResponse (Option (List String))))
    (st : ClientState) :
    (ObsidianClient.read path noteRes st).1.connected = st.connected ∧
    (ObsidianClient.write path content writeRes st).1.connected = st.connected ∧
    (ObsidianClient.append path content appendRes st).1.connected = st.connected ∧
    (ObsidianClient.search query searchRes st).1.connected = st.connected ∧
    (ObsidianClient.list folder listRes st).1.connected = st.connected := by
  refine ⟨?_, ?_, ?_, ?_, ?_⟩
  · cases noteRes <;> simp [ObsidianClient.read, apply_ite]
  · cases writeRes <;> simp [ObsidianClient.write, apply_ite]
  · cases appendRes <;> simp [ObsidianClient.append, apply_ite]
  · cases searchRes <;> simp [ObsidianClient.search, apply_ite]
  · cases listRes <;> simp [ObsidianClient.list, apply_ite]

/-- C6: every tool action converts a thrown failure of the underlying
client call into the failure envelope (`isError := true`, message as
plain text) and wraps a successful call's value into the success envelope
with its serialized structured payload; since both constructors of the
call outcome are covered and each handler is a total function into
`ToolResult`, no failure propagates to the caller. -/
theorem tool_actions_uniform_envelope (e path : String) (folderArg : Option String)
    (limit : Option Nat) (results : List ObsidianSearchResult)
    (note : ObsidianNote) (files : List String) :
    (searchHandler limit (.error e) = toolErr e ∧
      searchHandler limit (.ok results)
        = toolOk (.searchItems ((results.take (limit.getD 5)).map searchItemOf))) ∧
    (readHandler (.error e) = toolErr e ∧
      readHandler (.ok note) = toolOk (.noteData note.path note.content)) ∧
    (writeHandler path (.error e) = toolErr e ∧
      writeHandler path (.ok ()) = toolOk (.writeResult true path)) ∧
    (appendHandler path (.error e) = toolErr e ∧
      appendHandler path (.ok ()) = toolOk (.appendResult true path)) ∧
    (listHandler folderArg (.error e) = toolErr e ∧
      listHandler folderArg (.ok files) = toolOk (.listResult (folderArg.getD "") files)) :=
  ⟨⟨rfl, rfl⟩, ⟨rfl, rfl⟩, ⟨rfl, rfl⟩, ⟨rfl, rfl⟩, ⟨rfl, rfl⟩⟩

/-- C9: on a successful client search, the search tool action returns the
results truncated to `limit` (5 when the caller omits it) after
retrieval, in the server-given order, each mapped to its filename, score
and first match's context snippet; an item without matches gets the empty
string; the payload never exceeds `limit` items. -/
theorem search_action_truncates_and_maps (limit : Option Nat)
    (results : List ObsidianSearchResult) (f : String) (sc : Int)
    (m : SearchMatch) (ms : List SearchMatch) :
    searchHandler limit (.ok results)
      = toolOk (.searchItems ((results.take (limit.getD 5)).map searchItemOf)) ∧
    searchHandler none (.ok results)
      = toolOk (.searchItems ((results.take 5).map searchItemOf)) ∧
    ((results.take (limit.getD 5)).map searchItemOf).length ≤ limit.getD 5 ∧
    searchItemOf ⟨f, sc, []⟩ = (f, sc, "") ∧
    searchItemOf ⟨f, sc, m :: ms⟩ = (f, sc, m.context) := by
  refine ⟨rfl, rfl, ?_, rfl, rfl⟩
  simp

/-- C10: the capability export's `search` defaults its limit to 10 when
omitted (not 5) and returns at most `limit` results in the order the
client returned them; its `isConnected` returns `false` (rather than
failing) once the client reference has been released, and reports the
flag when the client is present. -/
theorem extension_search_and_isConnected (limit : Option Nat)
    (results : List ObsidianSearchResult) (st : ClientState) :
    extensionSearch limit (.ok results) = .ok (results.take (limit.getD 10)) ∧
    extensionSearch none (.ok results) = .ok (results.take 10) ∧
    (results.take (limit.getD 10)).length ≤ limit.getD 10 ∧
    extensionIsConnected none = false ∧
    extensionIsConnected (some st) = st.connected := by
  refine ⟨rfl, rfl, ?_, rfl, rfl⟩
  simp

/-- Blank-message test of `index.ts` lines 318-319: `message.content` is
absent, or trims to the empty string (`!query?.trim()`). -/
def blankMessage : Option String → Bool
  | none => true
  | some q => jsTrim q == ""

/-- C1: the context provider produces no context whenever the injection
mode is not `"always"`, or the client is disconnected, or the message
content is absent or whitespace-only, or the vault search throws; in
particular the thrown search failure is absorbed (the provider's
embedding is total and returns `none` there). -/
theorem getContext_none_when_guarded (cfg : ObsidianConfig) (connected : Bool)
    (messageContent : Option String)
    (searchCall : Except String (List ObsidianSearchResult))
    (readNote : String → Except String ObsidianNote)
    (h : cfg.injectContext ≠ "always" ∨ connected = false ∨
      blankMessage messageContent = true ∨ ∃ e, searchCall = .error e) :
    getContext cfg connected messageContent searchCall readNote = none := by
  unfold getContext getContextBody
  rcases h with h | h | h | ⟨e, he⟩
  · simp [h]
  · subst h
    simp
  · cases messageContent with
    | none =>
      by_cases h1 : cfg.injectContext = "always" <;> cases connected <;> simp [h1]
    | some q =>
      simp only [blankMessage, beq_iff_eq] at h
      by_cases h1 : cfg.injectContext = "always" <;> cases connected <;> simp [h1, h]
  · subst he
    by_cases h1 : cfg.injectContext = "always"
    · cases connected with
      | false => simp [h1]
      | true =>
        cases messageContent with
        | none => simp [h1]
        | some q => by_cases h2 : jsTrim q = "" <;> simp [h1, h2]
    · simp [h1]

/-- Witness for C1: with mode `"never"` (and everything else favourable)
the provider yields no context. -/
theorem getContext_none_when_guarded_witness :
    getContext ⟨none, "never", none, .bool false⟩ true (some "hi")
      (.ok []) (fun _ => .error "boom") = none :=
  getContext_none_when_guarded _ _ _ _ _ (Or.inl (by decide))

/-- C2: whenever the context provider produces a block out of a
successful search, the block is a single system-role block whose content
is the fixed header followed by the sections of the first
`maxContextNotes` (default 3) search results in the order the search
returned them, separated by the horizontal rule `---`; there are never
more than `maxContextNotes` sections; each section is the result's
filename heading followed by the note content truncated to 2000
characters when its read succeeds, and by the `*(could not read)*`
placeholder when its read fails, so a failing read never aborts the
batch. -/
theorem getContext_block_shape (cfg : ObsidianConfig) (connected : Bool)
    (messageContent : Option String) (results : List ObsidianSearchResult)
    (readNote : String → Except String ObsidianNote) (block : ContextBlock)
    (h : getContext cfg connected messageContent (.ok results) readNote = some block) :
    block.role = "system" ∧
    block.noteCount = (results.take (cfg.maxContextNotes.getD 3)).length ∧
    block.noteCount ≤ cfg.maxContextNotes.getD 3 ∧
    block.content = "## Relevant notes from your Obsidian vault:\n\n"
      ++ String.intercalate "\n\n---\n\n"
        ((results.take (cfg.maxContextNotes.getD 3)).map (noteSection readNote)) ∧
    (∀ r note, readNote r.filename = .ok note →
      noteSection readNote r = "### " ++ r.filename ++ "\n" ++ note.content.take 2000) ∧
    (∀ r e, readNote r.filename = .error e →
      noteSection readNote r = "### " ++ r.filename ++ "\n*(could not read)*") := by
  have hsec1 : ∀ r note, readNote r.filename = .ok note →
      noteSection readNote r = "### " ++ r.filename ++ "\n" ++ note.content.take 2000 := by
    intro r note hr
    unfold noteSection
    rw [hr]
  have hsec2 : ∀ r e, readNote r.filename = .error e →
      noteSection readNote r = "### " ++ r.filename ++ "\n*(could not read)*" := by
    intro r e hr
    unfold noteSection
    rw [hr]
  unfold getContext getContextBody at h
  by_cases h1 : cfg.injectContext = "always"
  case neg => simp [h1] at h
  cases connected with
  | false => simp [h1] at h
  | true =>
    cases messageContent with
    | none => simp [h1] at h
    | some q =>
      by_cases h2 : jsTrim q = ""
      · simp [h1, h2] at h
      · by_cases h3 : (results.take (cfg.maxContextNotes.getD 3)).length = 0
        · simp [h1, h2, h3] at h
        · simp only [h1, h2, h3] at h
          simp [h1, h2, h3] at h
          refine ⟨?_, ?_, ?_, ?_, hsec1, hsec2⟩ <;> simp [← h]

/-- Concrete read outcomes used by the C2 witness: every note fails to
read, exercising the per-note placeholder branch. -/
def sampleReadNote : String → Except String ObsidianNote :=
  fun _ => .error "boom"

/-- The context block the provider assembles in the C2 witness run. -/
def sampleBlock : ContextBlock :=
  { content := "## Relevant notes from your Obsidian vault:\n\n### A.md\n*(could not read)*\n\n---\n\n### B.md\n*(could not read)*"
  , role := "system"
  , noteCount := 2 }

/-- Witness for C2: mode `"always"`, connected, message `"meeting notes"`,
a successful search with two results whose reads both fail; the provider
emits the two-placeholder-section block and the theorem applies to it. -/
theorem getContext_block_shape_witness :
    getContext ⟨none, "always", none, .bool false⟩ true (some "meeting notes")
      (.ok [⟨"A.md", 2, [⟨0, 1, "ca"⟩]⟩, ⟨"B.md", 1, []⟩]) sampleReadNote
        = some sampleBlock ∧
    sampleBlock.role = "system" ∧ sampleBlock.noteCount ≤ 3 := by
  have h : getContext ⟨none, "always", none, .bool false⟩ true (some "meeting notes")
      (.ok [⟨"A.md", 2, [⟨0, 1, "ca"⟩]⟩, ⟨"B.md", 1, []⟩]) sampleReadNote
        = some sampleBlock := by
    rfl
  have hc := getContext_block_shape _ _ _ _ _ _ h
  exact ⟨h, hc.1, hc.2.2.1⟩

/-- C3: the session-teardown handler issues a vault write exactly when
the archive setting is `true` (boolean) or the string `"true"` and the
client reference is present with its connectivity flag set; and any write
it issues targets `<vaultFolder>/sessions/<YYYY-MM-DD>-<sessionId>.md`,
the date being the first ten characters of the ISO timestamp and the
folder defaulting to `"WOPR"`. -/
theorem sessionDestroy_write_iff (cfg : ObsidianConfig) (client : Option ClientState)
    (sessionId timestamp : String) (history : List (String × String)) :
    (sessionDestroyHandler cfg client sessionId timestamp history ≠ none ↔
      ((cfg.sessionArchive = .bool true ∨ archiveSettingToString cfg.sessionArchive = "true") ∧
        ∃ st, client = some st ∧ st.connected = true)) ∧
    (∀ p c, sessionDestroyHandler cfg client sessionId timestamp history = some (p, c) →
      p = cfg.vaultPath.getD "WOPR" ++ "/sessions/" ++ timestamp.take 10
        ++ "-" ++ sessionId ++ ".md") := by
  constructor
  · unfold sessionDestroyHandler archiveEnabled
    by_cases ha : cfg.sessionArchive = .bool true ∨ archiveSettingToString cfg.sessionArchive = "true"
    · cases client with
      | none => simp [ha]
      | some st =>
        cases hst : st.connected <;>
          simp [ha, ObsidianClient.isConnected, hst]
    · push_neg at ha
      simp [ha.1, ha.2]
  · intro p c hw
    unfold sessionDestroyHandler at hw
    by_cases ha : archiveEnabled cfg.sessionArchive
    · cases client with
      | none => simp [ha] at hw
      | some st =>
        cases hst : st.connected with
        | false => simp [ha, ObsidianClient.isConnected, hst] at hw
        | true =>
          simp [ha, ObsidianClient.isConnected, hst] at hw
          exact hw.1.symm
    · simp [ha] at hw

/-- Witness for C3: archive setting stored as the string `"true"`,
client present and connected; a write is issued, and its path for the
concrete timestamp is `WOPR/sessions/2026-10-12-s1.md`. -/
theorem sessionDestroy_write_iff_witness :
    sessionDestroyHandler ⟨none, "always", none, .str "true"⟩ (some ⟨true⟩) "s1"
      "2026-10-12T08:00:00.000Z" [] ≠ none ∧
    "WOPR/sessions/2026-10-12-s1.md"
      = (none : Option String).getD "WOPR" ++ "/sessions/"
        ++ ("2026-10-12T08:00:00.000Z".take 10) ++ "-" ++ "s1" ++ ".md" :=
  ⟨(sessionDestroy_write_iff _ _ _ _ _).1.mpr ⟨Or.inr rfl, ⟨true⟩, rfl, rfl⟩,
    (sessionDestroy_write_iff ⟨none, "always", none, .str "true"⟩ (some ⟨true⟩) "s1"
        "2026-10-12T08:00:00.000Z" []).2 "WOPR/sessions/2026-10-12-s1.md"
      "# Session s1\n*2026-10-12T08:00:00.000Z*\n\n" rfl⟩

/-- Every cleanup is invoked no matter which cleanups throw: the cleanup
loop's trace is exactly the registered list, in order. -/
theorem runCleanups_eq_map (cleanupFails : Nat → Bool) (l : List Nat) :
    runCleanups cleanupFails l = l.map ShutdownEffect.runCleanup := by
  induction l with
  | nil => rfl
  | cons a t ih => simp [runCleanups, ih]

/-- Unregistration-failure oracle in which the very first unregistration
(the config schema) throws. -/
def unregFailAtConfigSchema : UnregStep → Bool
  | .configSchema => true
  | _ => false

/-- Counterexample to C4: from the running state with one cleanup, if
unregistering the config schema throws, then the context provider and
the capability export are never unregistered and the client reference is
not released — contradicting the claim that every step executes even if
an individual step fails. -/
theorem shutdown_claim_counterexample :
    (shutdown (fun _ => false) unregFailAtConfigSchema
      ⟨true, true, true, [0]⟩).state.clientPresent = true ∧
    (shutdown (fun _ => false) unregFailAtConfigSchema
      ⟨true, true, true, [0]⟩).trace.contains
        (ShutdownEffect.unregister .contextProvider) = false ∧
    (shutdown (fun _ => false) unregFailAtConfigSchema
      ⟨true, true, true, [0]⟩).trace.contains
        (ShutdownEffect.unregister .capabilityExport) = false := by
  decide

/-- C4 (amended): during shutdown the poller is always stopped, every
accumulated cleanup is invoked in order even when individual cleanups
throw (the outcome does not depend on which cleanups fail), and the
registry is cleared; when no unregistration throws, the config schema,
context provider and capability export are unregistered in that order
and the client and context references are released — but a throwing
unregistration aborts the steps after it (see the counterexample). -/
theorem shutdown_steps_execute (cleanupFails cleanupFails' : Nat → Bool)
    (unregFails : UnregStep → Bool) (s : PluginState) :
    shutdown cleanupFails unregFails s = shutdown cleanupFails' unregFails s ∧
    (shutdown cleanupFails unregFails s).state.cleanups = [] ∧
    (shutdown cleanupFails unregFails s).state.healthTimer = false ∧
    (∃ rest, (shutdown cleanupFails unregFails s).trace
      = (if s.healthTimer then [ShutdownEffect.clearTimer] else [])
        ++ s.cleanups.map ShutdownEffect.runCleanup ++ rest) ∧
    ((∀ u, unregFails u = false) →
      (shutdown cleanupFails unregFails s).state
        = { ctxPresent := false, clientPresent := false, healthTimer := false, cleanups := [] } ∧
      (s.ctxPresent = true →
        (shutdown cleanupFails unregFails s).trace
          = (if s.healthTimer then [ShutdownEffect.clearTimer] else [])
            ++ s.cleanups.map ShutdownEffect.runCleanup
            ++ [ShutdownEffect.unregister .configSchema,
                ShutdownEffect.unregister .contextProvider,
                ShutdownEffect.unregister .capabilityExport])) := by
  refine ⟨?_, ?_, ?_, ?_, ?_⟩
  · unfold shutdown
    rw [runCleanups_eq_map, runCleanups_eq_map]
  · unfold shutdown
    by_cases hc : s.ctxPresent
    · simp only [hc, if_true]
      split_ifs <;> rfl
    · simp [hc]
  · unfold shutdown
    by_cases hc : s.ctxPresent
    · simp only [hc, if_true]
      split_ifs <;> rfl
    · simp [hc]
  · unfold shutdown
    rw [runCleanups_eq_map]
    by_cases hc : s.ctxPresent
    · simp only [hc, if_true]
      split_ifs <;> exact ⟨_, rfl⟩
    · simp only [hc]
      exact ⟨[], by simp⟩
  · intro hf
    unfold shutdown
    rw [runCleanups_eq_map]
    by_cases hc : s.ctxPresent <;> simp [hc, hf]

/-- Witness for C4 (amended): concrete run with two cleanups, the first
of which throws, and no unregistration failure: the outcome equals the
run where no cleanup throws, and the final state is fully released. -/
theorem shutdown_steps_execute_witness :
    shutdown (fun i => i == 0) (fun _ => false) ⟨true, true, true, [0, 1]⟩
      = shutdown (fun _ => false) (fun _ => false) ⟨true, true, true, [0, 1]⟩ ∧
    (shutdown (fun i => i == 0) (fun _ => false) ⟨true, true, true, [0, 1]⟩).state
      = { ctxPresent := false, clientPresent := false, healthTimer := false, cleanups := [] } := by
  have h := shutdown_steps_execute (fun i => i == 0) (fun _ => false)
    (fun _ => false) ⟨true, true, true, [0, 1]⟩
  exact ⟨h.1, (h.2.2.2.2 (fun _ => rfl)).1⟩

/-- Counterexample to C5 as stated: from the running state, when the
first shutdown call is aborted by a throwing config-schema
unregistration, invoking shutdown a second time is not free of
observable effects — with the same host behaviour it re-invokes an
unregistration (non-empty trace), and with a now-succeeding host it
changes the observable state (releasing the references the first call
left set). -/
theorem shutdown_idempotent_counterexample :
    (shutdown (fun _ => false) unregFailAtConfigSchema
      (shutdown (fun _ => false) unregFailAtConfigSchema
        ⟨true, true, true, [0]⟩).state).trace ≠ [] ∧
    (shutdown (fun _ => false) (fun _ => false)
      (shutdown (fun _ => false) unregFailAtConfigSchema
        ⟨true, true, true, [0]⟩).state).state
      ≠ (shutdown (fun _ => false) unregFailAtConfigSchema
        ⟨true, true, true, [0]⟩).state := by
  decide

/-- C5 (amended): shutdown is idempotent provided the first call
completes, i.e. no unregistration throws in it — after such a completed
shutdown from any state, a second shutdown call (whatever the host would
then do on an unregistration) leaves the state unchanged, performs no
host call, and does not throw. -/
theorem shutdown_idempotent (cleanupFails cleanupFails' : Nat → Bool)
    (unregFails' : UnregStep → Bool) (s : PluginState) :
    (shutdown cleanupFails' unregFails'
      (shutdown cleanupFails (fun _ => false) s).state).state
        = (shutdown cleanupFails (fun _ => false) s).state ∧
    (shutdown cleanupFails' unregFails'
      (shutdown cleanupFails (fun _ => false) s).state).trace = [] ∧
    (shutdown cleanupFails' unregFails'
      (shutdown cleanupFails (fun _ => false) s).state).threw = false := by
  have h1 : (shutdown cleanupFails (fun _ => false) s).state
      = { ctxPresent := false, clientPresent := false, healthTimer := false, cleanups := [] } := by
    unfold shutdown
    by_cases hc : s.ctxPresent <;> simp [hc]
  rw [h1]
  exact ⟨rfl, rfl, rfl⟩
